import Mathlib

/-!
Verification of the shopify-data-explorer repository.

The development shallowly embeds the two components the specification
documents: the server-side proxy function
(supabase/functions/fetch-shopify-data/index.ts) and the client-side row
normalizer (src/components/DataViewer.tsx), plus the domain normalization
rule of the Store Manager (StoreManager component).

JSON values are modelled by an inductive type whose numbers are integers:
every field this application reads numerically (store_id, counts, HTTP
statuses) is integral, and money amounts arrive as strings.  Object keys
are assumed unique, as produced by the object literals in the code.
-/

/-- Model of a JSON value.  Numbers are modelled as integers (see module
doc comment); `null` is the only JS-falsy non-primitive-absence value that
JSON can encode. -/
inductive Json where
  | null
  | bool (b : Bool)
  | num (n : Int)
  | str (s : String)
  | arr (elems : List Json)
  | obj (fields : List (String × Json))

/-- Association lookup among the own fields of a JS object, first match
wins (keys are assumed unique). -/
def lookupKV : List (String × Json) → String → Option Json
  | [], _ => none
  | (k, v) :: rest, key => if k == key then some v else lookupKV rest key

/-- Field access `j.key` on a JSON value: missing keys and non-object
receivers yield `none`, the model of the JS value `undefined`. -/
def objField (j : Json) (key : String) : Option Json :=
  match j with
  | .obj fields => lookupKV fields key
  | _ => none

/-- JS truthiness of a JSON value: `null`, `false`, `0` and `""` are
falsy; arrays and objects (even empty ones) are truthy. -/
def jsTruthy : Json → Bool
  | .null => false
  | .bool b => b
  | .num n => n != 0
  | .str s => s != ""
  | .arr _ => true
  | .obj _ => true

/-- JS truthiness of a possibly-`undefined` value: `undefined` is falsy. -/
def jsTruthyOpt : Option Json → Bool
  | none => false
  | some j => jsTruthy j

mutual
/-- JS string coercion of a JSON value, as used when it is employed as a
property key (`QUERIES[data_type]`). -/
def jsKeyString : Json → String
  | .null => "null"
  | .bool true => "true"
  | .bool false => "false"
  | .num n => toString n
  | .str s => s
  | .obj _ => "[object Object]"
  | .arr elems => jsArrJoin elems

/-- JS `Array.prototype.toString`: elements joined by commas, with `null`
elements rendered as the empty string. -/
def jsArrJoin : List Json → String
  | [] => ""
  | [Json.null] => ""
  | [j] => jsKeyString j
  | Json.null :: rest => "," ++ jsArrJoin rest
  | j :: rest => jsKeyString j ++ "," ++ jsArrJoin rest
end

/-- Key coercion of a possibly-`undefined` value (JS renders `undefined`
as the string "undefined" when used as a key). -/
def jsKeyStringOpt : Option Json → String
  | none => "undefined"
  | some j => jsKeyString j

/-- The permissive CORS header set of the function (index.ts lines 4-7). -/
def corsHeaders : List (String × String) :=
  [("Access-Control-Allow-Origin", "*"),
   ("Access-Control-Allow-Headers", "authorization, x-client-info, apikey, content-type")]

/-- Headers attached to every JSON-bodied response:
`\x7b ...corsHeaders, 'Content-Type': 'application/json' \x7d`. -/
def jsonHeaders : List (String × String) :=
  corsHeaders ++ [("Content-Type", "application/json")]

/-- The orders query string of the QUERIES catalog (index.ts lines 11-36),
verbatim. -/
def ordersQuery : String :=
  "\n    query getOrders \x7b\n      orders(first: 20, sortKey: PROCESSED_AT, reverse: true) \x7b\n        edges \x7b\n          node \x7b\n            id\n            name\n            processedAt\n            displayFinancialStatus\n            displayFulfillmentStatus\n            totalPriceSet \x7b\n              shopMoney \x7b\n                amount\n                currencyCode\n              \x7d\n            \x7d\n            customer \x7b\n              firstName\n              lastName\n              email\n            \x7d\n          \x7d\n        \x7d\n      \x7d\n    \x7d\n  "

/-- The products query string of the QUERIES catalog (index.ts lines
37-61), verbatim. -/
def productsQuery : String :=
  "\n    query getProducts \x7b\n      products(first: 20, sortKey: UPDATED_AT, reverse: true) \x7b\n        edges \x7b\n          node \x7b\n            id\n            title\n            handle\n            status\n            totalInventory\n            updatedAt\n            featuredImage \x7b\n              url\n            \x7d\n            priceRangeV2 \x7b\n              minVariantPrice \x7b\n                amount\n                currencyCode\n              \x7d\n            \x7d\n          \x7d\n        \x7d\n      \x7d\n    \x7d\n  "

/-- The customers query string of the QUERIES catalog (index.ts lines
62-79), verbatim. -/
def customersQuery : String :=
  "\n    query getCustomers \x7b\n      customers(first: 20, sortKey: UPDATED_AT, reverse: true) \x7b\n        edges \x7b\n          node \x7b\n            id\n            displayName\n            email\n            numberOfOrders\n            amountSpent \x7b\n              amount\n              currencyCode\n            \x7d\n          \x7d\n        \x7d\n      \x7d\n    \x7d\n  "

/-- The QUERIES object (index.ts lines 10-80): a fixed mapping from the
three data-type selectors to canned GraphQL query strings. -/
def QUERIES : List (String × String) :=
  [("orders", ordersQuery),
   ("products", productsQuery),
   ("customers", customersQuery)]

/-- Own-key part of the property lookup `QUERIES[data_type]`: the three
selector keys of the catalog object literal itself. -/
def lookupQuery (key : String) : Option String :=
  (QUERIES.find? (fun p => p.1 == key)).map (fun p => p.2)

/-- Names of the standard own properties of `Object.prototype`, which an
object literal inherits: JS bracket access finds these through the
prototype chain even though they are not keys of the literal. -/
def objectProtoMembers : List String :=
  ["constructor", "hasOwnProperty", "isPrototypeOf", "propertyIsEnumerable",
   "toLocaleString", "toString", "valueOf", "__proto__",
   "__defineGetter__", "__defineSetter__", "__lookupGetter__", "__lookupSetter__"]

/-- A value produced by JS bracket access on the QUERIES object literal:
an own property holds its query string; a name inherited from
`Object.prototype` holds the inherited member (a function, or the
`__proto__` accessor result), which is truthy but is not a query string
(JSON.stringify drops a function-valued query field from the request
body). -/
inductive JsMember where
  | str (s : String)
  | inherited (name : String)
deriving DecidableEq

/-- The full model of the property lookup `QUERIES[data_type]`: own keys
first, then the members inherited from `Object.prototype`; only a name
found in neither place yields `undefined`. -/
def bracketQUERIES (key : String) : Option JsMember :=
  match lookupQuery key with
  | some q => some (JsMember.str q)
  | none =>
    if objectProtoMembers.contains key then some (JsMember.inherited key)
    else none

/-- A row of the stores table as selected by the proxy
(`select shopify_domain, api_access_token`). -/
structure StoreRecord where
  shopify_domain : String
  api_access_token : String

/-- Result the transport layer produces for the single outbound call:
`ok`/`status`/`statusText` of the Response object, the raw text body, and
the result of parsing the body as JSON (an `Except` because parsing can
throw). -/
structure FetchResult where
  ok : Bool
  status : Nat
  statusText : String
  bodyText : String
  bodyJson : Except String Json

/-- An incoming request: its HTTP method and the result of
`await req.json()` (an `Except`, since parsing can throw, in which case
the outer catch produces the 500 response). -/
structure Request where
  method : String
  bodyJson : Except String Json

/-- Oracle for the two external effects the function performs: the
database store lookup (`.single()` yields one record or an error, both
error and no-row collapse to `none` because the code treats
`storeError || !store` alike) and the outbound Shopify call. -/
structure World where
  storeLookup : Option StoreRecord
  shopifyResponse : FetchResult

/-- Trace of the externally visible effects an invocation performs, in
order: the credential lookup keyed by the raw store_id value, and the
outbound POST with its url and the value the bracket lookup put into the
request body (a query string for a recognized selector, an inherited
prototype member otherwise). -/
inductive Effect where
  | dbLookup (storeId : Option Json)
  | httpFetch (url : String) (query : JsMember)

/-- An HTTP response as constructed by the function: status, headers, and
the JSON value passed to JSON.stringify for the body (`none` for the
body-less preflight response). -/
structure HttpResponse where
  status : Nat
  headers : List (String × String)
  body : Option Json

/-- The 500 catch-all response (index.ts lines 197-209). -/
def internalErrorResponse (msg : String) : HttpResponse :=
  ⟨500, jsonHeaders,
   some (Json.obj [("error", Json.str "Internal server error"),
                   ("details", Json.str msg)])⟩

/-- Destructuring `const \x7b store_id, data_type \x7d = await req.json()`:
destructuring `null` throws (caught by the outer catch); destructuring any
other non-object yields `undefined` for both fields; objects yield their
own fields. -/
def destructureBody (body : Json) : Except String (Option Json × Option Json) :=
  match body with
  | .null => .error "Cannot destructure property of null"
  | .obj fields => .ok (lookupKV fields "store_id", lookupKV fields "data_type")
  | _ => .ok (none, none)

/-- The serve handler of supabase/functions/fetch-shopify-data/index.ts
(lines 82-210), as a pure function of the request and the effect oracle,
returning the response together with the trace of effects performed. -/
def fetchShopifyData (req : Request) (w : World) : HttpResponse × List Effect :=
  if req.method = "OPTIONS" then
    (⟨200, corsHeaders, none⟩, [])
  else
    match req.bodyJson with
    | .error msg => (internalErrorResponse msg, [])
    | .ok body =>
      match destructureBody body with
      | .error msg => (internalErrorResponse msg, [])
      | .ok (store_id, data_type) =>
        if !jsTruthyOpt store_id || !jsTruthyOpt data_type then
          (⟨400, jsonHeaders,
            some (Json.obj [("error", Json.str "Missing store_id or data_type")])⟩, [])
        else
          match bracketQUERIES (jsKeyStringOpt data_type) with
          | none =>
            (⟨400, jsonHeaders,
              some (Json.obj [("error",
                Json.str "Invalid data_type. Must be: orders, products, or customers")])⟩, [])
          | some query =>
            match w.storeLookup with
            | none =>
              (⟨404, jsonHeaders,
                some (Json.obj [("error", Json.str "Store not found")])⟩,
               [Effect.dbLookup store_id])
            | some store =>
              let shopifyUrl :=
                "https://" ++ store.shopify_domain ++ "/admin/api/2024-07/graphql.json"
              let r := w.shopifyResponse
              let effs := [Effect.dbLookup store_id, Effect.httpFetch shopifyUrl query]
              if !r.ok then
                (⟨r.status, jsonHeaders,
                  some (Json.obj
                    [("error", Json.str "Shopify API request failed"),
                     ("details", Json.str (toString r.status ++ ": " ++ r.statusText)),
                     ("shopifyError", Json.str r.bodyText)])⟩, effs)
              else
                match r.bodyJson with
                | .error msg => (internalErrorResponse msg, effs)
                | .ok shopifyData =>
                  match objField shopifyData "errors" with
                  | some errs =>
                    if jsTruthy errs then
                      (⟨400, jsonHeaders,
                        some (Json.obj
                          [("error", Json.str "Shopify GraphQL errors"),
                           ("details", errs)])⟩, effs)
                    else (⟨200, jsonHeaders, some shopifyData⟩, effs)
                  | none => (⟨200, jsonHeaders, some shopifyData⟩, effs)

/-- Shape test for the uniform failure envelope
`\x7b error: string, details?: any \x7d`. -/
def isErrorEnvelope : Json → Bool
  | Json.obj fields =>
    (match lookupKV fields "error" with
     | some (Json.str _) => true
     | _ => false)
    && fields.all (fun p => p.1 == "error" || p.1 == "details")
  | _ => false

/-- Envelope-shape test applied to the JSON body of a response. -/
def respIsErrorEnvelope (r : HttpResponse) : Bool :=
  match r.body with
  | some j => isErrorEnvelope j
  | none => false

/-- Test whether the first list is a prefix of the second (used to model
the JS string primitives on the underlying character lists). -/
def hasPrefixChars : List Char → List Char → Bool
  | [], _ => true
  | _ :: _, [] => false
  | a :: as, b :: bs => a == b && hasPrefixChars as bs

/-- Test whether the first list occurs as a contiguous segment of the
second. -/
def hasInfixChars (sub : List Char) : List Char → Bool
  | [] => hasPrefixChars sub []
  | c :: rest => hasPrefixChars sub (c :: rest) || hasInfixChars sub rest

/-- JS `String.prototype.includes`. -/
def containsSub (s sub : String) : Bool :=
  hasInfixChars sub.data s.data

/-- JS `String.prototype.startsWith`. -/
def startsWithStr (s pre : String) : Bool :=
  hasPrefixChars pre.data s.data

/-- JS `String.prototype.endsWith`. -/
def endsWithStr (s suffix : String) : Bool :=
  hasPrefixChars suffix.data (s.data.drop (s.data.length - suffix.data.length))

/-- The regex replacement `replace(/^https?:\/\//, "")` of handleSubmit:
remove a single leading protocol. -/
def stripProtocol (s : String) : String :=
  if startsWithStr s "https://" then String.mk (s.data.drop 8)
  else if startsWithStr s "http://" then String.mk (s.data.drop 7)
  else s

/-- The regex replacement `replace(/\/$/, "")` of handleSubmit: remove a
single trailing slash. -/
def stripTrailingSlash (s : String) : String :=
  if endsWithStr s "/" then String.mk s.data.dropLast else s

/-- The domain normalization of StoreManager.handleSubmit: if the input
contains ".myshopify.com" anywhere it is kept verbatim, otherwise the
protocol and a trailing slash are stripped and the suffix appended unless
already present. -/
def normalizeDomain (input : String) : String :=
  if containsSub input ".myshopify.com" then input
  else
    let stripped := stripTrailingSlash (stripProtocol input)
    if endsWithStr stripped ".myshopify.com" then stripped
    else stripped ++ ".myshopify.com"

/-- The character for a decimal digit value below ten. -/
def digitChar (d : Nat) : Char :=
  Char.ofNat (48 + d)

/-- Decimal digits of a natural number, least significant first. -/
def natDigitsRev (n : Nat) : List Char :=
  if h : n < 10 then [digitChar n]
  else digitChar (n % 10) :: natDigitsRev (n / 10)
termination_by n
decreasing_by exact Nat.div_lt_self (by omega) (by omega)

/-- Decimal rendering of a natural number. -/
def natStr (n : Nat) : String :=
  String.mk (natDigitsRev n).reverse

/-- Numeric value of a list of decimal digit characters (empty list reads
as zero). -/
def natOfDigits (l : List Char) : Nat :=
  l.foldl (fun a c => a * 10 + (c.toNat - 48)) 0

/-- Leading sign of a numeric literal, as consumed by JS `parseFloat`. -/
def splitSign : List Char → Bool × List Char
  | [] => (false, [])
  | c :: rest =>
    if c = '-' then (true, rest)
    else if c = '+' then (false, rest)
    else (false, c :: rest)

/-- Value in hundredths of the decimal literal with the given integer and
fraction digits, rounded half-up at the second fraction digit. -/
def centsOf (intDigits frac : List Char) : Nat :=
  let f2 := frac.take 2
  let base := natOfDigits intDigits * 100 + natOfDigits f2 * 10 ^ (2 - f2.length)
  match frac.drop 2 with
  | [] => base
  | c :: _ => if '5' ≤ c then base + 1 else base

/-- Rendering of a value in hundredths with exactly two decimal places. -/
def centsRender (neg : Bool) (cents : Nat) : String :=
  (if neg && cents != 0 then "-" else "")
    ++ natStr (cents / 100) ++ "."
    ++ String.mk [digitChar (cents / 10 % 10), digitChar (cents % 10)]

/-- Models the composition `parseFloat(s).toFixed(2)` of processData for
plain decimal literals with an optional sign: unparsable inputs yield
"NaN" exactly as `Number.prototype.toFixed` renders a NaN.  Exponent
forms, leading whitespace and "Infinity" are outside the inputs this
application receives (Shopify money amounts are plain decimal strings),
and for fractions longer than two digits the tie is rounded up, which for
money strings of at most two fraction digits never arises. -/
def toFixed2 (s : String) : String :=
  let (neg, ds) := splitSign s.data
  let intDigits := ds.takeWhile Char.isDigit
  match ds.drop intDigits.length with
  | [] =>
    if intDigits.isEmpty then "NaN" else centsRender neg (centsOf intDigits [])
  | c :: fr =>
    if c = '.' then
      let frac := fr.takeWhile Char.isDigit
      if intDigits.isEmpty && frac.isEmpty then "NaN"
      else centsRender neg (centsOf intDigits frac)
    else if intDigits.isEmpty then "NaN"
    else centsRender neg (centsOf intDigits [])

/-- Rendering of a possibly-`undefined` string in a JS template literal. -/
def jsTemplateStr (o : Option String) : String :=
  o.getD "undefined"

/-- Rendering of `parseFloat(x).toFixed(2)` where `x` may be `undefined`
(then `parseFloat` yields NaN and the rendering is "NaN"). -/
def parseFloatFixed2 : Option String → String
  | none => "NaN"
  | some s => toFixed2 s

/-- A `shopMoney`-shaped money pair of the upstream schema; both fields
may be missing. -/
structure ShopMoney where
  amount : Option String
  currencyCode : Option String

/-- The money interpolation shared by all three processData cases:
a currency code, a space, and the amount through toFixed(2). -/
def formatMoney (m : ShopMoney) : String :=
  jsTemplateStr m.currencyCode ++ " " ++ parseFloatFixed2 m.amount

/-- The `totalPriceSet` wrapper of an order node. -/
structure TotalPriceSet where
  shopMoney : Option ShopMoney

/-- The `customer` object of an order node. -/
structure OrderCustomer where
  firstName : Option String
  lastName : Option String
  email : Option String

/-- An upstream order node; every field may be missing. -/
structure OrderNode where
  id : Option String
  name : Option String
  processedAt : Option String
  displayFinancialStatus : Option String
  displayFulfillmentStatus : Option String
  totalPriceSet : Option TotalPriceSet
  customer : Option OrderCustomer

/-- The `featuredImage` wrapper of a product node. -/
structure FeaturedImage where
  url : Option String

/-- The `priceRangeV2` wrapper of a product node. -/
structure PriceRangeV2 where
  minVariantPrice : Option ShopMoney

/-- An upstream product node; every field may be missing. -/
structure ProductNode where
  id : Option String
  title : Option String
  handle : Option String
  status : Option String
  totalInventory : Option Int
  updatedAt : Option String
  featuredImage : Option FeaturedImage
  priceRangeV2 : Option PriceRangeV2

/-- An upstream customer node; every field may be missing. -/
structure CustomerNode where
  id : Option String
  displayName : Option String
  email : Option String
  numberOfOrders : Option String
  amountSpent : Option ShopMoney

/-- The orders row produced by processData: the node fields spread
through, with derived display strings and processedAt overridden by its
formatted rendering. -/
structure OrderRow where
  id : Option String
  name : Option String
  displayFinancialStatus : Option String
  displayFulfillmentStatus : Option String
  totalPriceSet : Option TotalPriceSet
  customer : Option OrderCustomer
  totalPrice : String
  customerName : String
  processedAt : String

/-- The products row produced by processData. -/
structure ProductRow where
  id : Option String
  title : Option String
  handle : Option String
  status : Option String
  totalInventory : Option Int
  featuredImage : Option FeaturedImage
  priceRangeV2 : Option PriceRangeV2
  price : String
  updatedAt : String

/-- The customers row produced by processData. -/
structure CustomerRow where
  id : Option String
  displayName : Option String
  email : Option String
  numberOfOrders : Option String
  amountSpent : String

/-- The orders case of processData (DataViewer.tsx lines 136-146),
parameterized by the environment date formatter `toLocaleDateString`. -/
def processOrderNode (fmtDate : String → String) (node : OrderNode) : OrderRow :=
  { id := node.id
    name := node.name
    displayFinancialStatus := node.displayFinancialStatus
    displayFulfillmentStatus := node.displayFulfillmentStatus
    totalPriceSet := node.totalPriceSet
    customer := node.customer
    totalPrice :=
      match node.totalPriceSet.bind TotalPriceSet.shopMoney with
      | some m => formatMoney m
      | none => "N/A"
    customerName :=
      match node.customer with
      | none => "Guest"
      | some c =>
        let joined := ((c.firstName.getD "") ++ " " ++ (c.lastName.getD "")).trim
        if joined == "" then
          match c.email with
          | some e => if e == "" then "Guest" else e
          | none => "Guest"
        else joined
    processedAt :=
      match node.processedAt with
      | some ts => if ts == "" then "N/A" else fmtDate ts
      | none => "N/A" }

/-- The products case of processData (DataViewer.tsx lines 147-154). -/
def processProductNode (fmtDate : String → String) (node : ProductNode) : ProductRow :=
  { id := node.id
    title := node.title
    handle := node.handle
    status := node.status
    totalInventory := node.totalInventory
    featuredImage := node.featuredImage
    priceRangeV2 := node.priceRangeV2
    price :=
      match node.priceRangeV2.bind PriceRangeV2.minVariantPrice with
      | some m => formatMoney m
      | none => "N/A"
    updatedAt :=
      match node.updatedAt with
      | some ts => if ts == "" then "N/A" else fmtDate ts
      | none => "N/A" }

/-- The customers case of processData (DataViewer.tsx lines 155-161). -/
def processCustomerNode (node : CustomerNode) : CustomerRow :=
  { id := node.id
    displayName := node.displayName
    email := node.email
    numberOfOrders := node.numberOfOrders
    amountSpent :=
      match node.amountSpent with
      | some m => formatMoney m
      | none => "N/A" }

/-- The three data-type selectors. -/
inductive DataType where
  | orders
  | products
  | customers

/-- The node shape of each selector. -/
def NodeOf : DataType → Type
  | .orders => OrderNode
  | .products => ProductNode
  | .customers => CustomerNode

/-- The row shape of each selector. -/
def RowOf : DataType → Type
  | .orders => OrderRow
  | .products => ProductRow
  | .customers => CustomerRow

/-- Per-node dispatch of processData on the selector. -/
def processNode (fmtDate : String → String) : (dt : DataType) → NodeOf dt → RowOf dt
  | .orders => processOrderNode fmtDate
  | .products => processProductNode fmtDate
  | .customers => fun node => processCustomerNode node

/-- The row normalizer processData of DataViewer.tsx (lines 133-166) as a
pure function `(nodes, selector) -> rows`, parameterized by the
environment date formatter. -/
def processData (fmtDate : String → String) (dt : DataType)
    (nodes : List (NodeOf dt)) : List (RowOf dt) :=
  nodes.map (processNode fmtDate dt)

/-- An order node with every field missing. -/
def emptyOrderNode : OrderNode :=
  ⟨none, none, none, none, none, none, none⟩

/-- A product node with every field missing. -/
def emptyProductNode : ProductNode :=
  ⟨none, none, none, none, none, none, none, none⟩

/-- A customer node with every field missing. -/
def emptyCustomerNode : CustomerNode :=
  ⟨none, none, none, none, none⟩

/-- Test for a plain unsigned decimal literal: a nonempty run of digits,
optionally followed by a dot and a nonempty run of digits. -/
def decimalLit (s : String) : Bool :=
  let ds := s.data
  let intDigits := ds.takeWhile Char.isDigit
  match ds.drop intDigits.length with
  | [] => !intDigits.isEmpty
  | c :: fr => c == '.' && !intDigits.isEmpty && !fr.isEmpty && fr.all Char.isDigit

/-- Test for the shape "digits, dot, exactly two digits". -/
def twoDecPattern (s : String) : Bool :=
  let ds := s.data
  let intDigits := ds.takeWhile Char.isDigit
  match ds.drop intDigits.length with
  | [c, d1, d2] => c == '.' && !intDigits.isEmpty && d1.isDigit && d2.isDigit
  | _ => false

theorem digitChar_isDigit (d : Nat) (h : d < 10) : (digitChar d).isDigit = true := by
  unfold digitChar
  interval_cases d <;> decide

theorem natDigitsRev_ne_nil (n : Nat) : natDigitsRev n ≠ [] := by
  rw [natDigitsRev]
  split <;> simp

theorem natDigitsRev_digits (n : Nat) : ∀ c ∈ natDigitsRev n, c.isDigit = true := by
  induction n using Nat.strong_induction_on with
  | _ n ih =>
    rw [natDigitsRev]
    split
    · intro c hc
      simp only [List.mem_singleton] at hc
      subst hc
      exact digitChar_isDigit n (by omega)
    · intro c hc
      simp only [List.mem_cons] at hc
      rcases hc with hc | hc
      · subst hc
        exact digitChar_isDigit (n % 10) (Nat.mod_lt _ (by omega))
      · exact ih (n / 10) (Nat.div_lt_self (by omega) (by omega)) c hc

theorem natStr_ne_nil (n : Nat) : (natStr n).data ≠ [] := by
  unfold natStr
  simpa using natDigitsRev_ne_nil n

theorem natStr_digits (n : Nat) : ∀ c ∈ (natStr n).data, c.isDigit = true := by
  unfold natStr
  intro c hc
  simp only [List.mem_reverse] at hc
  exact natDigitsRev_digits n c hc

theorem data_append (s t : String) : (s ++ t).data = s.data ++ t.data := by
  cases s
  cases t
  rfl

theorem takeWhile_append_all (p : Char → Bool) (A B : List Char)
    (hA : ∀ c ∈ A, p c = true) : (A ++ B).takeWhile p = A ++ B.takeWhile p := by
  induction A with
  | nil => simp
  | cons a as iha =>
    have ha : p a = true := hA a (List.mem_cons_self a as)
    simp only [List.cons_append, List.takeWhile_cons, ha, if_true]
    rw [iha (fun c hc => hA c (List.mem_cons_of_mem a hc))]

theorem twoDecPattern_shape (s : String) (A : List Char) (d1 d2 : Char)
    (hdata : s.data = A ++ ['.', d1, d2])
    (hne : A ≠ []) (hdig : ∀ c ∈ A, c.isDigit = true)
    (h1 : d1.isDigit = true) (h2 : d2.isDigit = true) :
    twoDecPattern s = true := by
  unfold twoDecPattern
  rw [hdata]
  have htake : (A ++ ['.', d1, d2]).takeWhile Char.isDigit = A := by
    rw [takeWhile_append_all Char.isDigit A _ hdig]
    simp [List.takeWhile_cons]
  simp only [htake]
  rw [List.drop_left]
  simp [h1, h2, hne]

theorem centsRender_twoDec (cents : Nat) :
    twoDecPattern (centsRender false cents) = true := by
  apply twoDecPattern_shape (centsRender false cents) (natStr (cents / 100)).data
    (digitChar (cents / 10 % 10)) (digitChar (cents % 10))
  · unfold centsRender
    simp [data_append, List.append_assoc]
  · exact natStr_ne_nil _
  · exact natStr_digits _
  · exact digitChar_isDigit _ (Nat.mod_lt _ (by omega))
  · exact digitChar_isDigit _ (Nat.mod_lt _ (by omega))

theorem isEmpty_false_of_ne_nil {α : Type} (l : List α) (h : l ≠ []) : l.isEmpty = false := by
  cases l with
  | nil => exact absurd rfl h
  | cons a t => rfl

theorem ne_nil_of_isEmpty_false {α : Type} (l : List α) (h : l.isEmpty = false) : l ≠ [] := by
  cases l with
  | nil => simp at h
  | cons a t => simp

theorem splitSign_of_digit (l : List Char) (hne : l.takeWhile Char.isDigit ≠ []) :
    splitSign l = (false, l) := by
  cases l with
  | nil => simp at hne
  | cons c rest =>
    have hd : c.isDigit = true := by
      cases hdc : c.isDigit with
      | true => rfl
      | false =>
        rw [List.takeWhile_cons, hdc] at hne
        simp at hne
    have h1 : c ≠ '-' := by
      intro hc
      subst hc
      exact absurd hd (by decide)
    have h2 : c ≠ '+' := by
      intro hc
      subst hc
      exact absurd hd (by decide)
    simp [splitSign, h1, h2]

theorem toFixed2_twoDec (s : String) (h : decimalLit s = true) :
    twoDecPattern (toFixed2 s) = true := by
  cases hdrop : s.data.drop (s.data.takeWhile Char.isDigit).length with
  | nil =>
    have hne : s.data.takeWhile Char.isDigit ≠ [] := by
      simp only [decimalLit, hdrop, Bool.not_eq_true'] at h
      exact ne_nil_of_isEmpty_false _ h
    have hfalse := isEmpty_false_of_ne_nil _ hne
    unfold toFixed2
    rw [splitSign_of_digit s.data hne]
    dsimp only
    rw [hdrop]
    simp [hfalse, centsRender_twoDec]
  | cons c fr =>
    simp only [decimalLit, hdrop, Bool.and_eq_true, beq_iff_eq, Bool.not_eq_true'] at h
    obtain ⟨⟨⟨hc, hni⟩, hfr⟩, hall⟩ := h
    have hne : s.data.takeWhile Char.isDigit ≠ [] := ne_nil_of_isEmpty_false _ hni
    unfold toFixed2
    rw [splitSign_of_digit s.data hne]
    dsimp only
    rw [hdrop]
    subst hc
    simp [hni, centsRender_twoDec]

set_option maxRecDepth 8192

/-- C8: the Query Catalog is a static, immutable mapping from exactly the
three selectors (orders, products, customers) to fixed query strings, and
each of the three query strings requests a page size of exactly 20
records sorted by a data-type-specific key in descending recency order
(orders by PROCESSED_AT, products and customers by UPDATED_AT, all with
reverse: true). -/
theorem QUERIES_catalog_fixed :
    QUERIES.map Prod.fst = ["orders", "products", "customers"] ∧
    lookupQuery "orders" = some ordersQuery ∧
    lookupQuery "products" = some productsQuery ∧
    lookupQuery "customers" = some customersQuery ∧
    containsSub ordersQuery "orders(first: 20, sortKey: PROCESSED_AT, reverse: true)" = true ∧
    containsSub productsQuery "products(first: 20, sortKey: UPDATED_AT, reverse: true)" = true ∧
    containsSub customersQuery "customers(first: 20, sortKey: UPDATED_AT, reverse: true)" = true :=
  ⟨rfl, rfl, rfl, rfl, by decide, by decide, by decide⟩

/-- C5 (code evaluation): the domain normalization of
StoreManager.handleSubmit keeps the input "https://foo.myshopify.com/"
verbatim, because the guard tests `includes(".myshopify.com")` rather
than `endsWith`, so the protocol prefix and trailing slash survive and
the stored value differs from the specified "foo.myshopify.com"; the
plain input "foo" is normalized as specified. -/
theorem normalizeDomain_includes_guard_eval :
    normalizeDomain "https://foo.myshopify.com/" = "https://foo.myshopify.com/" ∧
    normalizeDomain "https://foo.myshopify.com/" ≠ "foo.myshopify.com" ∧
    normalizeDomain "foo" = "foo.myshopify.com" :=
  ⟨rfl, by decide, rfl⟩

/-- Complementary validation fact: when store_id or data_type is absent
(or falsy), or the bracket lookup on the catalog finds neither an own
key nor an inherited prototype member for data_type, the proxy returns a
BadRequest error envelope with HTTP status 400 and an empty effect
trace. -/
theorem fetchShopifyData_badRequest_no_lookup_no_fetch
    (req : Request) (w : World) (body : Json) (store_id data_type : Option Json)
    (hm : req.method ≠ "OPTIONS")
    (hb : req.bodyJson = .ok body)
    (hd : destructureBody body = .ok (store_id, data_type))
    (hbad : jsTruthyOpt store_id = false ∨ jsTruthyOpt data_type = false ∨
            bracketQUERIES (jsKeyStringOpt data_type) = none) :
    (fetchShopifyData req w).1.status = 400 ∧
    respIsErrorEnvelope (fetchShopifyData req w).1 = true ∧
    (fetchShopifyData req w).2 = [] := by
  unfold fetchShopifyData
  rw [if_neg hm, hb]
  dsimp only
  rw [hd]
  dsimp only
  rcases hbad with h | h | h
  · simp [h, respIsErrorEnvelope, isErrorEnvelope, lookupKV]
  · simp [h, respIsErrorEnvelope, isErrorEnvelope, lookupKV]
  · cases hsid : jsTruthyOpt store_id <;> cases hdt : jsTruthyOpt data_type <;>
      simp [h, respIsErrorEnvelope, isErrorEnvelope, lookupKV]

/-- Evaluation of the complementary validation fact: a request with both
fields present but a data_type that is neither a selector nor a
prototype member name yields 400, the error envelope shape, and an empty
effect trace. -/
theorem fetchShopifyData_badRequest_witness_eval :
    (fetchShopifyData
        ⟨"POST", .ok (Json.obj [("store_id", Json.num 1), ("data_type", Json.str "nonsense")])⟩
        ⟨none, ⟨true, 200, "OK", "", .error "unused"⟩⟩).1.status = 400 ∧
    respIsErrorEnvelope
      (fetchShopifyData
        ⟨"POST", .ok (Json.obj [("store_id", Json.num 1), ("data_type", Json.str "nonsense")])⟩
        ⟨none, ⟨true, 200, "OK", "", .error "unused"⟩⟩).1 = true ∧
    (fetchShopifyData
        ⟨"POST", .ok (Json.obj [("store_id", Json.num 1), ("data_type", Json.str "nonsense")])⟩
        ⟨none, ⟨true, 200, "OK", "", .error "unused"⟩⟩).2 = [] :=
  fetchShopifyData_badRequest_no_lookup_no_fetch _ _ _ _ _
    (by decide) rfl rfl (Or.inr (Or.inr (by decide)))

/-- C2: for every request with both fields present (truthy) and a
recognized data_type, if the store lookup yields no record the proxy
returns 404 (distinct from the 400 of validation failure) with the
uniform error envelope, and the effect trace contains the credential
lookup but no outbound call. -/
theorem fetchShopifyData_storeNotFound_404_no_fetch
    (req : Request) (w : World) (body : Json) (store_id data_type : Option Json)
    (q : String)
    (hm : req.method ≠ "OPTIONS")
    (hb : req.bodyJson = .ok body)
    (hd : destructureBody body = .ok (store_id, data_type))
    (hsid : jsTruthyOpt store_id = true)
    (hdt : jsTruthyOpt data_type = true)
    (hq : lookupQuery (jsKeyStringOpt data_type) = some q)
    (hstore : w.storeLookup = none) :
    (fetchShopifyData req w).1.status = 404 ∧
    (fetchShopifyData req w).1.status ≠ 400 ∧
    (fetchShopifyData req w).1.body
      = some (Json.obj [("error", Json.str "Store not found")]) ∧
    respIsErrorEnvelope (fetchShopifyData req w).1 = true ∧
    (fetchShopifyData req w).2 = [Effect.dbLookup store_id] := by
  unfold fetchShopifyData
  rw [if_neg hm, hb]
  dsimp only
  rw [hd]
  dsimp only
  simp [hsid, hdt, hq, hstore, bracketQUERIES, respIsErrorEnvelope, isErrorEnvelope, lookupKV]

/-- C2 witness: a valid orders request against a world with no matching
store record yields 404, the envelope, and a trace with only the
database lookup. -/
theorem fetchShopifyData_storeNotFound_witness_eval :
    (fetchShopifyData
        ⟨"POST", .ok (Json.obj [("store_id", Json.num 7), ("data_type", Json.str "orders")])⟩
        ⟨none, ⟨true, 200, "OK", "", .error "unused"⟩⟩).1.status = 404 ∧
    (fetchShopifyData
        ⟨"POST", .ok (Json.obj [("store_id", Json.num 7), ("data_type", Json.str "orders")])⟩
        ⟨none, ⟨true, 200, "OK", "", .error "unused"⟩⟩).1.status ≠ 400 ∧
    (fetchShopifyData
        ⟨"POST", .ok (Json.obj [("store_id", Json.num 7), ("data_type", Json.str "orders")])⟩
        ⟨none, ⟨true, 200, "OK", "", .error "unused"⟩⟩).1.body
      = some (Json.obj [("error", Json.str "Store not found")]) ∧
    respIsErrorEnvelope
      (fetchShopifyData
        ⟨"POST", .ok (Json.obj [("store_id", Json.num 7), ("data_type", Json.str "orders")])⟩
        ⟨none, ⟨true, 200, "OK", "", .error "unused"⟩⟩).1 = true ∧
    (fetchShopifyData
        ⟨"POST", .ok (Json.obj [("store_id", Json.num 7), ("data_type", Json.str "orders")])⟩
        ⟨none, ⟨true, 200, "OK", "", .error "unused"⟩⟩).2
      = [Effect.dbLookup (some (Json.num 7))] :=
  fetchShopifyData_storeNotFound_404_no_fetch _ _ _ _ _ _
    (by decide) rfl rfl rfl rfl rfl rfl

/-- C9: on every code path of the proxy function the first two response
headers are exactly the permissive cross-origin header set, and every
OPTIONS request short-circuits to the empty 200 acknowledgement with an
empty effect trace, before any validation, credential lookup or outbound
call. -/
theorem fetchShopifyData_cors_and_preflight (req : Request) (w : World) :
    (fetchShopifyData req w).1.headers.take 2 = corsHeaders ∧
    (req.method = "OPTIONS" →
      fetchShopifyData req w = (⟨200, corsHeaders, none⟩, [])) := by
  constructor
  · unfold fetchShopifyData
    dsimp only
    split
    · rfl
    · split
      · rfl
      · split
        · rfl
        · split
          · rfl
          · split
            · rfl
            · split
              · rfl
              · split
                · rfl
                · split
                  · rfl
                  · split
                    · split
                      · rfl
                      · rfl
                    · rfl
  · intro hm
    simp [fetchShopifyData, hm]

/-- C9 witness: a concrete OPTIONS request yields the CORS headers and
the empty acknowledging response with no effects. -/
theorem fetchShopifyData_cors_preflight_witness_eval :
    (fetchShopifyData ⟨"OPTIONS", .error "preflight has no body"⟩
        ⟨none, ⟨true, 200, "OK", "", .error "unused"⟩⟩).1.headers.take 2 = corsHeaders ∧
    fetchShopifyData ⟨"OPTIONS", .error "preflight has no body"⟩
        ⟨none, ⟨true, 200, "OK", "", .error "unused"⟩⟩
      = (⟨200, corsHeaders, none⟩, []) :=
  ⟨(fetchShopifyData_cors_and_preflight _ _).1,
   (fetchShopifyData_cors_and_preflight _ _).2 rfl⟩

/-- C10: a request whose store_id field is syntactically present but
falsy (the number 0, the empty string, ...) is treated as missing: the
proxy returns the BadRequest missing-fields response without any
credential lookup or outbound call. -/
theorem fetchShopifyData_falsy_store_id_badRequest
    (req : Request) (w : World) (fields : List (String × Json)) (sid : Json)
    (hm : req.method ≠ "OPTIONS")
    (hb : req.bodyJson = .ok (Json.obj fields))
    (hsid : lookupKV fields "store_id" = some sid)
    (hfalsy : jsTruthy sid = false) :
    (fetchShopifyData req w).1 = ⟨400, jsonHeaders,
      some (Json.obj [("error", Json.str "Missing store_id or data_type")])⟩ ∧
    (fetchShopifyData req w).2 = [] := by
  unfold fetchShopifyData
  rw [if_neg hm, hb]
  dsimp only [destructureBody]
  rw [hsid]
  simp [jsTruthyOpt, hfalsy]

/-- C10 witness: store_id equal to the number 0, with a valid data_type,
yields the missing-fields 400 and an empty effect trace. -/
theorem fetchShopifyData_falsy_store_id_witness_eval :
    (fetchShopifyData
        ⟨"POST", .ok (Json.obj [("store_id", Json.num 0), ("data_type", Json.str "orders")])⟩
        ⟨none, ⟨true, 200, "OK", "", .error "unused"⟩⟩).1
      = ⟨400, jsonHeaders,
         some (Json.obj [("error", Json.str "Missing store_id or data_type")])⟩ ∧
    (fetchShopifyData
        ⟨"POST", .ok (Json.obj [("store_id", Json.num 0), ("data_type", Json.str "orders")])⟩
        ⟨none, ⟨true, 200, "OK", "", .error "unused"⟩⟩).2 = [] :=
  fetchShopifyData_falsy_store_id_badRequest _ _ _ _
    (by decide) rfl rfl rfl

/-- C3 counterexample: for an upstream 401 with raw body
"upstream raw 401 body", the details field of the response carries the
string "401: Unauthorized" (status and statusText), not the raw upstream
body, which is carried in the separate shopifyError field; so the claim
that details holds the raw upstream error body is false at this input. -/
theorem fetchShopifyData_upstreamError_details_counterexample :
    (fetchShopifyData
        ⟨"POST", .ok (Json.obj [("store_id", Json.num 1), ("data_type", Json.str "orders")])⟩
        ⟨some ⟨"shop.myshopify.com", "shpat_token"⟩,
         ⟨false, 401, "Unauthorized", "upstream raw 401 body", .error "no json"⟩⟩).1.status = 401 ∧
    (fetchShopifyData
        ⟨"POST", .ok (Json.obj [("store_id", Json.num 1), ("data_type", Json.str "orders")])⟩
        ⟨some ⟨"shop.myshopify.com", "shpat_token"⟩,
         ⟨false, 401, "Unauthorized", "upstream raw 401 body", .error "no json"⟩⟩).1.body
      = some (Json.obj
          [("error", Json.str "Shopify API request failed"),
           ("details", Json.str "401: Unauthorized"),
           ("shopifyError", Json.str "upstream raw 401 body")]) ∧
    "401: Unauthorized" ≠ "upstream raw 401 body" :=
  ⟨rfl, rfl, by decide⟩

/-- C3 (amended): for every upstream call completing with a non-success
status, the response status equals the upstream status, the details
field carries the string "status: statusText", and the raw upstream
error body is carried in the shopifyError field of the envelope. -/
theorem fetchShopifyData_upstreamError_mirrors_status
    (req : Request) (w : World) (body : Json) (store_id data_type : Option Json)
    (q : String) (store : StoreRecord)
    (hm : req.method ≠ "OPTIONS")
    (hb : req.bodyJson = .ok body)
    (hd : destructureBody body = .ok (store_id, data_type))
    (hsid : jsTruthyOpt store_id = true)
    (hdt : jsTruthyOpt data_type = true)
    (hq : lookupQuery (jsKeyStringOpt data_type) = some q)
    (hstore : w.storeLookup = some store)
    (hok : w.shopifyResponse.ok = false) :
    (fetchShopifyData req w).1.status = w.shopifyResponse.status ∧
    (fetchShopifyData req w).1.body = some (Json.obj
      [("error", Json.str "Shopify API request failed"),
       ("details", Json.str (toString w.shopifyResponse.status ++ ": "
          ++ w.shopifyResponse.statusText)),
       ("shopifyError", Json.str w.shopifyResponse.bodyText)]) ∧
    (fetchShopifyData req w).2 =
      [Effect.dbLookup store_id,
       Effect.httpFetch
         ("https://" ++ store.shopify_domain ++ "/admin/api/2024-07/graphql.json")
         (JsMember.str q)] := by
  unfold fetchShopifyData
  rw [if_neg hm, hb]
  dsimp only
  rw [hd]
  dsimp only
  simp [hsid, hdt, hq, hstore, hok, bracketQUERIES]

/-- C3 amended witness: evaluation of the amended statement at the 401
world used by the counterexample. -/
theorem fetchShopifyData_upstreamError_witness_eval :
    (fetchShopifyData
        ⟨"POST", .ok (Json.obj [("store_id", Json.num 2), ("data_type", Json.str "products")])⟩
        ⟨some ⟨"other.myshopify.com", "shpat_tok2"⟩,
         ⟨false, 502, "Bad Gateway", "gateway text", .error "no json"⟩⟩).1.status = 502 ∧
    (fetchShopifyData
        ⟨"POST", .ok (Json.obj [("store_id", Json.num 2), ("data_type", Json.str "products")])⟩
        ⟨some ⟨"other.myshopify.com", "shpat_tok2"⟩,
         ⟨false, 502, "Bad Gateway", "gateway text", .error "no json"⟩⟩).1.body
      = some (Json.obj
          [("error", Json.str "Shopify API request failed"),
           ("details", Json.str (toString 502 ++ ": " ++ "Bad Gateway")),
           ("shopifyError", Json.str "gateway text")]) ∧
    (fetchShopifyData
        ⟨"POST", .ok (Json.obj [("store_id", Json.num 2), ("data_type", Json.str "products")])⟩
        ⟨some ⟨"other.myshopify.com", "shpat_tok2"⟩,
         ⟨false, 502, "Bad Gateway", "gateway text", .error "no json"⟩⟩).2
      = [Effect.dbLookup (some (Json.num 2)),
         Effect.httpFetch "https://other.myshopify.com/admin/api/2024-07/graphql.json"
           (JsMember.str productsQuery)] :=
  fetchShopifyData_upstreamError_mirrors_status
    ⟨"POST", .ok (Json.obj [("store_id", Json.num 2), ("data_type", Json.str "products")])⟩
    ⟨some ⟨"other.myshopify.com", "shpat_tok2"⟩,
     ⟨false, 502, "Bad Gateway", "gateway text", .error "no json"⟩⟩
    (Json.obj [("store_id", Json.num 2), ("data_type", Json.str "products")])
    (some (Json.num 2)) (some (Json.str "products")) productsQuery
    ⟨"other.myshopify.com", "shpat_tok2"⟩
    (by decide) rfl rfl rfl rfl rfl rfl rfl

/-- C4 counterexample: when the upstream payload carries a top-level
errors array, the response status is 400, not the 500 the claim states. -/
theorem fetchShopifyData_graphqlErrors_status_counterexample :
    (fetchShopifyData
        ⟨"POST", .ok (Json.obj [("store_id", Json.num 1), ("data_type", Json.str "orders")])⟩
        ⟨some ⟨"shop.myshopify.com", "shpat_token"⟩,
         ⟨true, 200, "OK", "",
          .ok (Json.obj [("errors", Json.arr [Json.str "Field error"])])⟩⟩).1.status = 400 ∧
    (fetchShopifyData
        ⟨"POST", .ok (Json.obj [("store_id", Json.num 1), ("data_type", Json.str "orders")])⟩
        ⟨some ⟨"shop.myshopify.com", "shpat_token"⟩,
         ⟨true, 200, "OK", "",
          .ok (Json.obj [("errors", Json.arr [Json.str "Field error"])])⟩⟩).1.status ≠ 500 ∧
    (fetchShopifyData
        ⟨"POST", .ok (Json.obj [("store_id", Json.num 1), ("data_type", Json.str "orders")])⟩
        ⟨some ⟨"shop.myshopify.com", "shpat_token"⟩,
         ⟨true, 200, "OK", "",
          .ok (Json.obj [("errors", Json.arr [Json.str "Field error"])])⟩⟩).1.body
      = some (Json.obj
          [("error", Json.str "Shopify GraphQL errors"),
           ("details", Json.arr [Json.str "Field error"])]) :=
  ⟨rfl, by decide, rfl⟩

/-- C4 (amended): for every upstream call that succeeds transport-wise
but whose JSON payload contains a top-level errors array, the proxy
fails with the GraphQL-errors envelope carrying that array verbatim in
details, with HTTP status 400 (the same status as validation failures),
not 500. -/
theorem fetchShopifyData_graphqlErrors_400_verbatim
    (req : Request) (w : World) (body : Json) (store_id data_type : Option Json)
    (q : String) (store : StoreRecord) (payload : Json) (errs : List Json)
    (hm : req.method ≠ "OPTIONS")
    (hb : req.bodyJson = .ok body)
    (hd : destructureBody body = .ok (store_id, data_type))
    (hsid : jsTruthyOpt store_id = true)
    (hdt : jsTruthyOpt data_type = true)
    (hq : lookupQuery (jsKeyStringOpt data_type) = some q)
    (hstore : w.storeLookup = some store)
    (hok : w.shopifyResponse.ok = true)
    (hjson : w.shopifyResponse.bodyJson = .ok payload)
    (herrs : objField payload "errors" = some (Json.arr errs)) :
    (fetchShopifyData req w).1.status = 400 ∧
    (fetchShopifyData req w).1.body = some (Json.obj
      [("error", Json.str "Shopify GraphQL errors"),
       ("details", Json.arr errs)]) := by
  unfold fetchShopifyData
  rw [if_neg hm, hb]
  dsimp only
  rw [hd]
  dsimp only
  simp [hsid, hdt, hq, hstore, hok, hjson, herrs, jsTruthy, bracketQUERIES]

/-- C4 amended witness: evaluation of the amended statement at a payload
with a one-element errors array. -/
theorem fetchShopifyData_graphqlErrors_witness_eval :
    (fetchShopifyData
        ⟨"POST", .ok (Json.obj [("store_id", Json.num 3), ("data_type", Json.str "customers")])⟩
        ⟨some ⟨"c.myshopify.com", "shpat_tok3"⟩,
         ⟨true, 200, "OK", "",
          .ok (Json.obj [("errors", Json.arr [Json.str "Access denied"])])⟩⟩).1.status = 400 ∧
    (fetchShopifyData
        ⟨"POST", .ok (Json.obj [("store_id", Json.num 3), ("data_type", Json.str "customers")])⟩
        ⟨some ⟨"c.myshopify.com", "shpat_tok3"⟩,
         ⟨true, 200, "OK", "",
          .ok (Json.obj [("errors", Json.arr [Json.str "Access denied"])])⟩⟩).1.body
      = some (Json.obj
          [("error", Json.str "Shopify GraphQL errors"),
           ("details", Json.arr [Json.str "Access denied"])]) :=
  fetchShopifyData_graphqlErrors_400_verbatim
    ⟨"POST", .ok (Json.obj [("store_id", Json.num 3), ("data_type", Json.str "customers")])⟩
    ⟨some ⟨"c.myshopify.com", "shpat_tok3"⟩,
     ⟨true, 200, "OK", "",
      .ok (Json.obj [("errors", Json.arr [Json.str "Access denied"])])⟩⟩
    (Json.obj [("store_id", Json.num 3), ("data_type", Json.str "customers")])
    (some (Json.num 3)) (some (Json.str "customers")) customersQuery
    ⟨"c.myshopify.com", "shpat_tok3"⟩
    (Json.obj [("errors", Json.arr [Json.str "Access denied"])])
    [Json.str "Access denied"]
    (by decide) rfl rfl rfl rfl rfl rfl rfl rfl rfl

/-- C6: the row normalizer is a pure, deterministic, total function
`(nodes, selector) -> rows`: two applications to the same node list give
identical output, row i depends only on node i (the map form, so no
hidden state), the row count equals the node count, and even a node with
every field missing is normalized without fault, each derived accessor
degrading to its fallback string. -/
theorem processData_pure_total_deterministic (fmtDate : String → String) (dt : DataType)
    (nodes nodesDup : List (NodeOf dt)) (hsame : nodes = nodesDup) :
    processData fmtDate dt nodes = processData fmtDate dt nodesDup ∧
    processData fmtDate dt nodes = nodes.map (processNode fmtDate dt) ∧
    (processData fmtDate dt nodes).length = nodes.length ∧
    (processOrderNode fmtDate emptyOrderNode).totalPrice = "N/A" ∧
    (processOrderNode fmtDate emptyOrderNode).customerName = "Guest" ∧
    (processOrderNode fmtDate emptyOrderNode).processedAt = "N/A" ∧
    (processProductNode fmtDate emptyProductNode).price = "N/A" ∧
    (processProductNode fmtDate emptyProductNode).updatedAt = "N/A" ∧
    (processCustomerNode emptyCustomerNode).amountSpent = "N/A" := by
  subst hsame
  refine ⟨rfl, rfl, ?_, rfl, rfl, rfl, rfl, rfl, rfl⟩
  simp [processData]

/-- C6 witness: evaluation at the identity date formatter, the orders
selector, and a one-element node list. -/
theorem processData_pure_total_witness_eval :
    processData (fun s => s) DataType.orders [emptyOrderNode]
      = processData (fun s => s) DataType.orders [emptyOrderNode] ∧
    processData (fun s => s) DataType.orders [emptyOrderNode]
      = [emptyOrderNode].map (processNode (fun s => s) DataType.orders) ∧
    (processData (fun s => s) DataType.orders [emptyOrderNode]).length
      = [emptyOrderNode].length ∧
    (processOrderNode (fun s => s) emptyOrderNode).totalPrice = "N/A" ∧
    (processOrderNode (fun s => s) emptyOrderNode).customerName = "Guest" ∧
    (processOrderNode (fun s => s) emptyOrderNode).processedAt = "N/A" ∧
    (processProductNode (fun s => s) emptyProductNode).price = "N/A" ∧
    (processProductNode (fun s => s) emptyProductNode).updatedAt = "N/A" ∧
    (processCustomerNode emptyCustomerNode).amountSpent = "N/A" :=
  processData_pure_total_deterministic (fun s => s) DataType.orders
    [emptyOrderNode] [emptyOrderNode] rfl

/-- C7: for every order node, totalPrice is the currency code, a space,
and the amount through toFixed(2) (with two decimal places for decimal
literal amounts) or the fallback "N/A" when the money pair is absent;
customerName is the space-joined trimmed concatenation of firstName and
lastName, falling back to the email, falling back to "Guest", and is
"Guest" when the customer object is absent; and processedAt is the
localized date rendering of the timestamp, or "N/A" when it is absent. -/
theorem processOrders_row_derived_fields (fmtDate : String → String) (node : OrderNode) :
    (node.totalPriceSet.bind TotalPriceSet.shopMoney = none →
       (processOrderNode fmtDate node).totalPrice = "N/A") ∧
    (∀ m, node.totalPriceSet.bind TotalPriceSet.shopMoney = some m →
       (processOrderNode fmtDate node).totalPrice
         = jsTemplateStr m.currencyCode ++ " " ++ parseFloatFixed2 m.amount ∧
       (∀ a, m.amount = some a → decimalLit a = true →
          twoDecPattern (parseFloatFixed2 m.amount) = true)) ∧
    (node.customer = none → (processOrderNode fmtDate node).customerName = "Guest") ∧
    (∀ c, node.customer = some c →
       (((c.firstName.getD "" ++ " " ++ c.lastName.getD "").trim ≠ "" →
           (processOrderNode fmtDate node).customerName
             = (c.firstName.getD "" ++ " " ++ c.lastName.getD "").trim) ∧
        ((c.firstName.getD "" ++ " " ++ c.lastName.getD "").trim = "" →
           (∀ e, c.email = some e → e ≠ "" →
              (processOrderNode fmtDate node).customerName = e) ∧
           ((c.email = none ∨ c.email = some "") →
              (processOrderNode fmtDate node).customerName = "Guest")))) ∧
    (node.processedAt = none → (processOrderNode fmtDate node).processedAt = "N/A") ∧
    (∀ ts, node.processedAt = some ts → ts ≠ "" →
       (processOrderNode fmtDate node).processedAt = fmtDate ts) := by
  refine ⟨?_, ?_, ?_, ?_, ?_, ?_⟩
  · intro h
    simp [processOrderNode, h]
  · intro m hm
    constructor
    · simp [processOrderNode, hm, formatMoney]
    · intro a ha hlit
      rw [ha]
      simpa [parseFloatFixed2] using toFixed2_twoDec a hlit
  · intro h
    simp [processOrderNode, h]
  · intro c hc
    constructor
    · intro hne
      simp [processOrderNode, hc, hne]
    · intro hemp
      constructor
      · intro e he hene
        simp [processOrderNode, hc, hemp, he, hene]
      · intro hcase
        rcases hcase with he | he <;> simp [processOrderNode, hc, hemp, he]
  · intro h
    simp [processOrderNode, h]
  · intro ts hts hne
    simp [processOrderNode, hts, hne]

/-- C7 witness: evaluation at an order node carrying money pair
(amount "10.5", currency "USD") and no customer object: totalPrice is
the formatted money string with the two-decimal shape, and customerName
falls back to "Guest". -/
theorem processOrders_row_derived_fields_witness_eval :
    (processOrderNode (fun s => s)
        ⟨none, none, none, none, none, some ⟨some ⟨some "10.5", some "USD"⟩⟩, none⟩).totalPrice
      = jsTemplateStr (some "USD") ++ " " ++ parseFloatFixed2 (some "10.5") ∧
    twoDecPattern (parseFloatFixed2 (some "10.5")) = true ∧
    (processOrderNode (fun s => s)
        ⟨none, none, none, none, none, some ⟨some ⟨some "10.5", some "USD"⟩⟩, none⟩).customerName
      = "Guest" := by
  have h := processOrders_row_derived_fields (fun s => s)
    ⟨none, none, none, none, none, some ⟨some ⟨some "10.5", some "USD"⟩⟩, none⟩
  exact ⟨(h.2.1 ⟨some "10.5", some "USD"⟩ rfl).1,
         (h.2.1 ⟨some "10.5", some "USD"⟩ rfl).2 "10.5" rfl (by decide),
         h.2.2.1 rfl⟩

/-- C1 (code evaluation): the data_type value "toString" is not one of
the three recognized selectors (lookupQuery finds no own key), yet the
bracket access `QUERIES[data_type]` finds the truthy member inherited
from Object.prototype, so the `!QUERIES[data_type]` guard passes:
validation is bypassed and the proxy performs the credential lookup and
the outbound call, answering with the upstream result instead of the
BadRequest 400 with empty effect trace that the claim requires. -/
theorem fetchShopifyData_prototype_data_type_eval :
    lookupQuery "toString" = none ∧
    bracketQUERIES "toString" = some (JsMember.inherited "toString") ∧
    (fetchShopifyData
        ⟨"POST", .ok (Json.obj [("store_id", Json.num 1), ("data_type", Json.str "toString")])⟩
        ⟨some ⟨"shop.myshopify.com", "shpat_token"⟩,
         ⟨true, 200, "OK", "", .ok (Json.obj [("data", Json.obj [])])⟩⟩).2
      = [Effect.dbLookup (some (Json.num 1)),
         Effect.httpFetch "https://shop.myshopify.com/admin/api/2024-07/graphql.json"
           (JsMember.inherited "toString")] ∧
    (fetchShopifyData
        ⟨"POST", .ok (Json.obj [("store_id", Json.num 1), ("data_type", Json.str "toString")])⟩
        ⟨some ⟨"shop.myshopify.com", "shpat_token"⟩,
         ⟨true, 200, "OK", "", .ok (Json.obj [("data", Json.obj [])])⟩⟩).1.status = 200 ∧
    (fetchShopifyData
        ⟨"POST", .ok (Json.obj [("store_id", Json.num 1), ("data_type", Json.str "toString")])⟩
        ⟨some ⟨"shop.myshopify.com", "shpat_token"⟩,
         ⟨true, 200, "OK", "", .ok (Json.obj [("data", Json.obj [])])⟩⟩).1.status ≠ 400 :=
  ⟨rfl, rfl, rfl, rfl, by decide⟩
